import Mathlib

set_option maxRecDepth 4000

/-!
Verification of the data-fill codec of pylabview (module LVdatafill.py).

Shallow embedding conventions:
* A binary stream is a `List Nat` of byte values; a Python `BytesIO.read n`
  becomes `List.take n` / `List.drop n` (short reads return fewer bytes,
  exactly as `BytesIO` does).
* Decoders return a `DecodeResult`, carrying the remaining stream on both
  success and failure, so consumption at a raise site is observable.
* Python exceptions are modelled by the `PyErr` kind raised at that site;
  dynamic errors (undefined local names, `len` of an `int`) are modelled
  by the error class Python would actually raise there.
* Machine integers are `Nat`/`Int` with explicit `% 2 ^ w` where relevant.
-/

/-- Four-part LabVIEW file-format version (major, minor, bugfix, build). -/
structure Version where
  major : Nat
  minor : Nat
  bugfix : Nat
  build : Nat
deriving DecidableEq

/-- Modelled from the spec: the Version Policy collaborator (`isSmallerVersion`
in module LVmisc, which is not part of the given source file): ordered
(lexicographic) comparison of a four-part file-format version against a fixed
threshold.  Call sites passing only three threshold parts use 0 for the
fourth. -/
def isSmallerVersion (v : Version) (a b c d : Nat) : Bool :=
  if v.major = a then
    if v.minor = b then
      if v.bugfix = c then decide (v.build < d)
      else decide (v.bugfix < c)
    else decide (v.minor < b)
  else decide (v.major < a)

/-- Modelled from the spec: the Version Policy collaborator
(`isGreaterOrEqVersion` in module LVmisc), the complement of
`isSmallerVersion`. -/
def isGreaterOrEqVersion (v : Version) (a b c d : Nat) : Bool :=
  ! isSmallerVersion v a b c d

/-- Failure kinds of the codec.  `typeMismatch`, `sizeLimitExceeded`,
`notImplemented` and `runtimeError` are the raise sites' own error taxonomy;
`nameError`, `typeError` and `overflowError` model the Python dynamic errors
(`NameError`/`UnboundLocalError`, `TypeError`, `OverflowError`) that a raise
site or expression would actually produce. -/
inductive PyErr where
  | typeMismatch
  | sizeLimitExceeded
  | notImplemented
  | runtimeError
  | nameError
  | typeError
  | overflowError
deriving DecidableEq

/-- Result of a binary decode step: the value or the error raised, together
with the remaining stream at that point. -/
inductive DecodeResult (α : Type) where
  | ok (v : α) (rest : List Nat)
  | err (e : PyErr) (rest : List Nat)
deriving DecidableEq

/-- Big-endian encoding of `v` on `n` bytes, the embedding of Python's
`int.to_bytes(n, byteorder='big')` for an in-range value. -/
def toBytesBE : Nat → Nat → List Nat
  | 0, _ => []
  | n + 1, v => toBytesBE n (v / 256) ++ [v % 256]

/-- Big-endian decoding of a byte list, the embedding of Python's
`int.from_bytes(bs, byteorder='big', signed=False)`. -/
def fromBytesBE (bs : List Nat) : Nat :=
  bs.foldl (fun acc b => acc * 256 + b) 0

/-- Embedding of `DataFill.isSpecialDSTMClusterElement` (LVdatafill.py
lines 51-71): which client position of a special DSTM cluster carries a
data-fill entry, given the propagated flag word. -/
def isSpecialDSTMClusterElement (ver : Version) (idx : Nat) (tm_flags : Nat) : Bool :=
  if tm_flags &&& 0x0004 ≠ 0 then
    if isSmallerVersion ver 10 0 0 2 then idx == 2 else idx == 1
  else
    if tm_flags &&& 0x0010 ≠ 0 then idx == 1 || idx == 2 || idx == 3
    else if tm_flags &&& 0x0020 ≠ 0 then idx == 3
    else if tm_flags &&& 0x0040 ≠ 0 then idx == 2
    else false

/-- Embedding of the loop of `SpecialDSTMCluster.initWithRSRCParse`
(LVdatafill.py lines 1541-1557).  The clients are given as the
`(cli_idx, td_idx)` pairs produced by `clientsEnumerate`; the result is the
list of `(cli_idx, td_idx)` pairs for which a data-fill entry is created and
bound, in creation order.  The second argument is `skipNextEntry`. -/
def specialClusterParseEntries (ver : Version) (tm_flags : Nat) :
    List (Nat × Nat) → Bool → List (Nat × Nat)
  | [], _ => []
  | (ci, ti) :: rest, skipNext =>
    if isSpecialDSTMClusterElement ver ci tm_flags = false then
      specialClusterParseEntries ver tm_flags rest skipNext
    else if skipNext then
      specialClusterParseEntries ver tm_flags rest false
    else (ci, ti) :: specialClusterParseEntries ver tm_flags rest skipNext

/-- Embedding of `SpecialDSTMCluster.initWithRSRCParse` entry selection:
`skipNextEntry` is initialised from flag bit 0x0200. -/
def specialClusterInitEntries (ver : Version) (tm_flags : Nat)
    (clients : List (Nat × Nat)) : List (Nat × Nat) :=
  specialClusterParseEntries ver tm_flags clients (tm_flags &&& 0x0200 ≠ 0)

/-- Embedding of the loop of `SpecialDSTMCluster.setTD` (LVdatafill.py lines
1524-1539) for a node whose value list is non-empty.  The loop keeps its own
counter `cli_idx` (third argument, starting at 0), renames the enumeration
position to `cli_bad_idx`, and tests `isSpecialDSTMClusterElement` on its own
counter.  The result is the list of `(value_index, td_idx)` pairs for which
`self.value[value_index].setTD(sub_td, td_idx, ...)` is executed, in order. -/
def specialClusterSetTDRebindsLoop (ver : Version) (tm_flags : Nat) :
    List (Nat × Nat) → Bool → Nat → List (Nat × Nat)
  | [], _, _ => []
  | (_, ti) :: rest, skipNext, cliIdx =>
    if isSpecialDSTMClusterElement ver cliIdx tm_flags = false then
      specialClusterSetTDRebindsLoop ver tm_flags rest skipNext cliIdx
    else if skipNext then
      specialClusterSetTDRebindsLoop ver tm_flags rest false cliIdx
    else (cliIdx, ti) :: specialClusterSetTDRebindsLoop ver tm_flags rest skipNext (cliIdx + 1)

/-- Embedding of `SpecialDSTMCluster.setTD` child re-binding (non-empty
value list): `skipNextEntry` starts from flag bit 0x0200 and the counter
starts at 0. -/
def specialClusterSetTDRebinds (ver : Version) (tm_flags : Nat)
    (clients : List (Nat × Nat)) : List (Nat × Nat) :=
  specialClusterSetTDRebindsLoop ver tm_flags clients (tm_flags &&& 0x0200 ≠ 0) 0

/-- Type tags of the descriptor graph (`TD_FULL_TYPE` of module LVdatatype;
the subset that the embedded codecs mention). -/
inductive TDFullType where
  | Void
  | NumInt8
  | NumInt16
  | NumInt32
  | NumInt64
  | NumUInt8
  | NumUInt16
  | NumUInt32
  | NumUInt64
  | NumFloat32
  | NumFloat64
  | NumFloatExt
  | NumComplex64
  | NumComplex128
  | NumComplexExt
  | UnitUInt8
  | UnitUInt16
  | UnitUInt32
  | Boolean
  | BooleanU16
  | StringTag
  | Block
  | Cluster
  | ArrayTag
deriving DecidableEq

/-- Measurement-data flavors (`MEASURE_DATA_FLAVOR` of module LVdatatype);
`other` stands for any unrecognized flavor value. -/
inductive MDFlavor where
  | oldFloat64Waveform
  | int16Waveform
  | float64Waveform
  | float32Waveform
  | timeStamp
  | digitaldata
  | digitalWaveform
  | dynamicdata
  | floatExtWaveform
  | uint8Waveform
  | uint16Waveform
  | uint32Waveform
  | int8Waveform
  | int32Waveform
  | complex64Waveform
  | complex128Waveform
  | complexExtWaveform
  | int64Waveform
  | uint64Waveform
  | other (n : Nat)
deriving DecidableEq

/-- The type descriptor synthesized by `DataFillMeasureData.initVersion` for
a recognized flavor (the `newOldFloat64WaveformCluster`,
`newAnalogWaveformCluster`, timestamp `Block` of size 16,
`newDigitalTableCluster`, `newDigitalWaveformCluster` and
`newDynamicTableCluster` constructions of module LVdatatype, kept opaque). -/
inductive ContainedTd where
  | oldFloat64WaveformCluster
  | analogWaveformCluster (inner : TDFullType)
  | timestampBlock (blkSize : Nat)
  | digitalTableCluster
  | digitalWaveformCluster
  | dynamicTableCluster
deriving DecidableEq

/-- Embedding of `DataFillMeasureData.initVersion` (LVdatafill.py lines
701-770).  For a version below 7.0.0.2 the raise statement first evaluates
its message, which reads the undefined name `sub_td`; Python therefore
raises `NameError`, not the intended `NotImplementedError`.  An unrecognized
flavor raises `NotImplementedError` (its message only uses defined names). -/
def measureDataInitVersion (ver : Version) (flavor : MDFlavor) :
    Except PyErr ContainedTd :=
  if isSmallerVersion ver 7 0 0 2 then .error .nameError
  else
    match flavor with
    | .oldFloat64Waveform => .ok .oldFloat64WaveformCluster
    | .int16Waveform => .ok (.analogWaveformCluster .NumInt16)
    | .float64Waveform => .ok (.analogWaveformCluster .NumFloat64)
    | .float32Waveform => .ok (.analogWaveformCluster .NumFloat32)
    | .timeStamp => .ok (.timestampBlock 16)
    | .digitaldata => .ok .digitalTableCluster
    | .digitalWaveform => .ok .digitalWaveformCluster
    | .dynamicdata => .ok .dynamicTableCluster
    | .floatExtWaveform => .ok (.analogWaveformCluster .NumFloatExt)
    | .uint8Waveform => .ok (.analogWaveformCluster .NumUInt8)
    | .uint16Waveform => .ok (.analogWaveformCluster .NumUInt16)
    | .uint32Waveform => .ok (.analogWaveformCluster .NumUInt32)
    | .int8Waveform => .ok (.analogWaveformCluster .NumInt8)
    | .int32Waveform => .ok (.analogWaveformCluster .NumInt32)
    | .complex64Waveform => .ok (.analogWaveformCluster .NumComplex64)
    | .complex128Waveform => .ok (.analogWaveformCluster .NumComplex128)
    | .complexExtWaveform => .ok (.analogWaveformCluster .NumComplexExt)
    | .int64Waveform => .ok (.analogWaveformCluster .NumInt64)
    | .uint64Waveform => .ok (.analogWaveformCluster .NumUInt64)
    | .other _ => .error .notImplemented

/-- Embedding of `DataFillMeasureData.initWithRSRCParse` (LVdatafill.py lines
783-793), parameterized by the decoder of the synthesized contained type
(the recursively created child data fill, irrelevant to the claim about the
version/flavor gate).  `initVersion` runs before any byte of the stream is
touched; a child failure is wrapped into a `RuntimeError`. -/
def measureDataInitWithRSRCParse {α : Type}
    (decodeChild : ContainedTd → List Nat → DecodeResult α)
    (ver : Version) (flavor : MDFlavor) (s : List Nat) : DecodeResult (List α) :=
  match measureDataInitVersion ver flavor with
  | .error e => .err e s
  | .ok ctd =>
    match decodeChild ctd s with
    | .ok v rest => .ok [v] rest
    | .err _ rest => .err .runtimeError rest

/-- Refnum subkinds (`REFNUM_TYPE` of module LVdatatyperef; the subset the
embedded codecs mention, with `other` for the remaining kinds). -/
inductive RefnumType where
  | IVIRef
  | VisaRef
  | Imaq
  | UsrDefined
  | UsrDefndTag
  | UsrDefTagFlt
  | UDClassInst
  | other (n : Nat)
deriving DecidableEq

/-- Embedding of `DataFill.isRefnumTag` (LVdatafill.py lines 42-49). -/
def isRefnumTag (refType : RefnumType) : Bool :=
  match refType with
  | .IVIRef | .VisaRef | .UsrDefTagFlt | .UsrDefndTag => true
  | _ => false

/-- Value of an I/O refnum data fill: an integer handle or a byte string,
depending on the branch that filled it. -/
inductive IORefnumValue where
  | intVal (n : Nat)
  | bytesVal (bs : List Nat)
deriving DecidableEq

/-- Embedding of `DataFillIORefnum.initWithRSRCParse` (LVdatafill.py lines
1087-1096). -/
def ioRefnumInitWithRSRCParse (ver : Version) (refType : RefnumType)
    (s : List Nat) : IORefnumValue × List Nat :=
  if isGreaterOrEqVersion ver 6 0 0 0 then
    if isRefnumTag refType then
      let strlen := fromBytesBE (s.take 4)
      let s1 := s.drop 4
      (.bytesVal (s1.take strlen), s1.drop strlen)
    else (.intVal (fromBytesBE (s.take 4)), s.drop 4)
  else (.intVal (fromBytesBE (s.take 4)), s.drop 4)

/-- Embedding of `DataFillIORefnum.prepareRSRCData` (LVdatafill.py lines
1098-1109).  `len(...)` of an `int` value and `int(...)` of a `bytes` value
would raise `TypeError`; `to_bytes(4)` of a value at or above `2 ^ 32`
raises `OverflowError`. -/
def ioRefnumPrepareRSRCData (ver : Version) (refType : RefnumType)
    (value : IORefnumValue) : Except PyErr (List Nat) :=
  if isGreaterOrEqVersion ver 6 0 0 0 then
    if isRefnumTag refType then
      match value with
      | .bytesVal bs =>
        if bs.length < 2 ^ 32 then .ok (toBytesBE 4 bs.length ++ bs)
        else .error .overflowError
      | .intVal _ => .error .typeError
    else
      match value with
      | .intVal n =>
        if n < 2 ^ 32 then .ok (toBytesBE 4 n) else .error .overflowError
      | .bytesVal _ => .error .typeError
  else
    match value with
    | .intVal n =>
      if n < 2 ^ 32 then .ok (toBytesBE 4 n) else .error .overflowError
    | .bytesVal _ => .error .typeError

/-- Embedding of `DataFillIORefnum.expectedRSRCSize` (LVdatafill.py lines
1111-1121).  In the tag branch the method executes
`data_buf += 4 + len(self.value)`, but no local `data_buf` was ever
assigned in this method, so Python raises `UnboundLocalError` (a `NameError`)
instead of returning a size. -/
def ioRefnumExpectedRSRCSize (ver : Version) (refType : RefnumType) :
    Except PyErr Nat :=
  if isGreaterOrEqVersion ver 6 0 0 0 then
    if isRefnumTag refType then .error .nameError
    else .ok 4
  else .ok 4

/-- Embedding of `DataFillUDClassInst.expectedRSRCSize` (LVdatafill.py lines
1318-1329).  After `exp_whole_len += 4` the method executes
`str_len += 1 + len(self.libName)` with the local `str_len` never having been
assigned, so Python raises `UnboundLocalError` (a `NameError`) on every
call, whatever the stored value is. -/
def udClassInstExpectedRSRCSize (_libName : List Nat) (_value : List (List Nat)) :
    Except PyErr Nat :=
  .error .nameError

/-- State of an opaque-block data fill (`DataFillBlock`): the stored byte
value, mutable because `prepareRSRCData` rewrites it. -/
structure BlockState where
  value : List Nat
deriving DecidableEq

/-- Embedding of `DataFillBlock.initWithRSRCParse` (LVdatafill.py lines
939-940): read `blkSize` bytes (a short read stores fewer bytes). -/
def blockInitWithRSRCParse (blkSize : Nat) (s : List Nat) :
    BlockState × List Nat :=
  (⟨s.take blkSize⟩, s.drop blkSize)

/-- Embedding of `DataFillBlock.prepareRSRCData` (LVdatafill.py lines
942-953): when the stored value's length differs from the declared block
size, the stored value itself is zero-padded or truncated to that size
before being returned.  Returns the new state and the produced buffer. -/
def blockPrepareRSRCData (blkSize : Nat) (st : BlockState) :
    BlockState × List Nat :=
  if st.value.length ≠ blkSize then
    let newVal :=
      if st.value.length < blkSize then
        st.value ++ List.replicate (blkSize - st.value.length) 0
      else st.value.take blkSize
    (⟨newVal⟩, newVal)
  else (st, st.value)

/-- Embedding of `DataFillBlock.expectedRSRCSize` (LVdatafill.py lines
955-958): the length of the currently stored value. -/
def blockExpectedRSRCSize (st : BlockState) : Nat :=
  st.value.length

/-- Value record of a user-defined tag refnum (`DataFillUDTagRefnum`):
`usrdef3` is an integer read as a bare 4-byte field; the three byte-string
fields are length-prefixed. -/
structure UDTagValue where
  value : List Nat
  usrdef1 : Option (List Nat)
  usrdef2 : Option (List Nat)
  usrdef3 : Option Nat
  usrdef4 : Option (List Nat)
deriving DecidableEq

/-- Embedding of `DataFillUDTagRefnum.initWithRSRCParse` (LVdatafill.py lines
1197-1215): a 4-byte-length-prefixed byte string, one padding byte inside
the version window [12.0.0.2, 12.0.0.5), and for the float-tag kind four
extra fields: two length-prefixed byte strings, a bare 4-byte integer, and a
final length-prefixed byte string. -/
def udTagInitWithRSRCParse (ver : Version) (refType : RefnumType)
    (s : List Nat) : UDTagValue × List Nat :=
  let strlen := fromBytesBE (s.take 4)
  let s1 := s.drop 4
  let value := s1.take strlen
  let s2 := s1.drop strlen
  let s3 :=
    if isGreaterOrEqVersion ver 12 0 0 2 && isSmallerVersion ver 12 0 0 5 then
      s2.drop 1
    else s2
  if refType = RefnumType.UsrDefTagFlt then
    let l1 := fromBytesBE (s3.take 4)
    let s4 := s3.drop 4
    let u1 := s4.take l1
    let s5 := s4.drop l1
    let l2 := fromBytesBE (s5.take 4)
    let s6 := s5.drop 4
    let u2 := s6.take l2
    let s7 := s6.drop l2
    let u3 := fromBytesBE (s7.take 4)
    let s8 := s7.drop 4
    let l4 := fromBytesBE (s8.take 4)
    let s9 := s8.drop 4
    let u4 := s9.take l4
    (⟨value, some u1, some u2, some u3, some u4⟩, s9.drop l4)
  else
    (⟨value, none, none, none, none⟩, s3)

/-- Embedding of `DataFillUDTagRefnum.prepareRSRCData` (LVdatafill.py lines
1217-1233).  For the float-tag kind the third extra field is emitted as
`len(self.usrdef3).to_bytes(4, ...)`, but `usrdef3` is an integer (or
`None`), so `len` raises `TypeError` and the call produces no buffer. -/
def udTagPrepareRSRCData (ver : Version) (refType : RefnumType)
    (d : UDTagValue) : Except PyErr (List Nat) :=
  if d.value.length ≥ 2 ^ 32 then .error .overflowError
  else
    let buf := toBytesBE 4 d.value.length ++ d.value
    let buf1 :=
      if isGreaterOrEqVersion ver 12 0 0 2 && isSmallerVersion ver 12 0 0 5 then
        buf ++ [0]
      else buf
    if refType = RefnumType.UsrDefTagFlt then .error .typeError
    else .ok buf1

/-- Width and signedness selected by `DataFillInt.__init__` (LVdatafill.py
lines 164-204) from the type tag; an unexpected tag raises `RuntimeError`. -/
def intTypeSpec (tdType : TDFullType) : Except PyErr (Nat × Bool) :=
  match tdType with
  | .NumInt8 => .ok (1, true)
  | .NumInt16 => .ok (2, true)
  | .NumInt32 => .ok (4, true)
  | .NumInt64 => .ok (8, true)
  | .NumUInt8 => .ok (1, false)
  | .NumUInt16 => .ok (2, false)
  | .NumUInt32 => .ok (4, false)
  | .NumUInt64 => .ok (8, false)
  | .UnitUInt8 => .ok (1, false)
  | .UnitUInt16 => .ok (2, false)
  | .UnitUInt32 => .ok (4, false)
  | _ => .error .runtimeError

/-- Embedding of Python's `int.from_bytes(bs, byteorder='big', signed=...)`. -/
def intFromBytes (signed : Bool) (bs : List Nat) : Int :=
  let u := fromBytesBE bs
  if signed ∧ 2 ^ (8 * bs.length) ≤ 2 * u then (u : Int) - 2 ^ (8 * bs.length)
  else (u : Int)

/-- Embedding of `DataFillInt.initWithRSRCParse` (LVdatafill.py lines
206-207). -/
def intInitWithRSRCParse (size : Nat) (signed : Bool) (s : List Nat) :
    Int × List Nat :=
  (intFromBytes signed (s.take size), s.drop size)

/-- Embedding of `DataFillInt.prepareRSRCData` (LVdatafill.py lines 209-211):
`int(self.value).to_bytes(size, byteorder='big', signed=...)`, which raises
`OverflowError` outside the representable range. -/
def intPrepareRSRCData (size : Nat) (signed : Bool) (v : Int) :
    Except PyErr (List Nat) :=
  if signed then
    if -(2 ^ (8 * size - 1) : Int) ≤ v ∧ v < 2 ^ (8 * size - 1) then
      .ok (toBytesBE size (v % (2 ^ (8 * size) : Int)).toNat)
    else .error .overflowError
  else
    if 0 ≤ v ∧ v < 2 ^ (8 * size) then .ok (toBytesBE size v.toNat)
    else .error .overflowError

/-- Embedding of `DataFillInt.expectedRSRCSize` (LVdatafill.py lines
213-215). -/
def intExpectedRSRCSize (size : Nat) : Nat := size

/-- Decimal digit list (most significant digit first) of a natural number:
the information content of the text `"{:d}".format(n)` for `n ≥ 0`. -/
def natDecimalDigits (n : Nat) : List Nat :=
  (Nat.digits 10 n).reverse

/-- Embedding of `DataFillInt.exportXML` (LVdatafill.py lines 220-221): the
element text `"{:d}".format(self.value)`, modelled as a sign flag and the
decimal digits. -/
def intExportXMLText (v : Int) : Bool × List Nat :=
  (decide (v < 0), natDecimalDigits v.natAbs)

/-- Embedding of `DataFillInt.initWithXML` (LVdatafill.py lines 217-218):
`int(df_elem.text, 0)` applied to a plain signed decimal string. -/
def intInitWithXMLText (t : Bool × List Nat) : Int :=
  let n : Nat := Nat.ofDigits 10 t.2.reverse
  if t.1 then -(n : Int) else (n : Int)

/-- Embedding of `DataFillString.initWithRSRCParse` (LVdatafill.py lines
381-385): 4-byte length prefix, then that many raw bytes. -/
def stringInitWithRSRCParse (s : List Nat) : List Nat × List Nat :=
  let strlen := fromBytesBE (s.take 4)
  let s1 := s.drop 4
  (s1.take strlen, s1.drop strlen)

/-- Embedding of `DataFillString.prepareRSRCData` (LVdatafill.py lines
387-391). -/
def stringPrepareRSRCData (value : List Nat) : Except PyErr (List Nat) :=
  if value.length < 2 ^ 32 then .ok (toBytesBE 4 value.length ++ value)
  else .error .overflowError

/-- Embedding of `DataFillString.expectedRSRCSize` (LVdatafill.py lines
393-396). -/
def stringExpectedRSRCSize (value : List Nat) : Nat :=
  4 + value.length

/-- Embedding of `DataFillString.exportXML` (LVdatafill.py lines 406-408),
parameterized by the external collaborators: the text-encoding decode step
and the safe-store escaping helper (module LVxml, not part of the given
source).  Modelled from the spec: these helpers safely store and restore
arbitrary byte content as text. -/
def stringExportXMLText {T : Type} (textDecode : List Nat → T)
    (escapeStore : T → T) (value : List Nat) : T :=
  escapeStore (textDecode value)

/-- Embedding of `DataFillString.initWithXML` (LVdatafill.py lines 398-404)
on a present text, parameterized by the external unescaping and
text-encoding collaborators. -/
def stringInitWithXMLText {T : Type} (textEncode : T → List Nat)
    (unescapeStore : T → T) (t : T) : List Nat :=
  textEncode (unescapeStore t)

/-- Embedding of the dimension-reading loop of `DataFillArray.initWithRSRCParse`
(LVdatafill.py lines 500-503): one 4-byte unsigned extent per declared
dimension. -/
def readDims : Nat → List Nat → List Nat × List Nat
  | 0, s => ([], s)
  | n + 1, s =>
    let d := fromBytesBE (s.take 4)
    let r := readDims n (s.drop 4)
    (d :: r.1, r.2)

/-- Embedding of the element loop of `DataFillArray.initWithRSRCParse`
(LVdatafill.py lines 520-526): decode `n` consecutive elements; a failing
element is wrapped into a `RuntimeError` and aborts the loop. -/
def decodeElems {α : Type} (decodeChild : List Nat → DecodeResult α) :
    Nat → List Nat → DecodeResult (List α)
  | 0, s => .ok [] s
  | n + 1, s =>
    match decodeChild s with
    | .err _ rest => .err .runtimeError rest
    | .ok v s1 =>
      match decodeElems decodeChild n s1 with
      | .err e rest => .err e rest
      | .ok vs s2 => .ok (v :: vs) s2

/-- Embedding of `DataFillArray.initWithRSRCParse` (LVdatafill.py lines
499-527): read one 4-byte extent per declared dimension, fail with
`RuntimeError` when the descriptor has no client, multiply the extents with
the top bit masked off, fail with the SizeLimitExceeded condition when the
product exceeds `po.array_data_limit`, otherwise decode that many elements
of the single child type. -/
def arrayInitWithRSRCParse {α : Type} (decodeChild : List Nat → DecodeResult α)
    (nDims : Nat) (limit : Nat) (hasClient : Bool) (s : List Nat) :
    DecodeResult (List Nat × List α) :=
  let r := readDims nDims s
  if hasClient = false then .err .runtimeError r.2
  else
    let totItems := (r.1.map (fun d => d &&& 0x7fffffff)).prod
    if totItems > limit then .err .sizeLimitExceeded r.2
    else
      match decodeElems decodeChild totItems r.2 with
      | .err e rest => .err e rest
      | .ok vs rest => .ok (r.1, vs) rest

/-- Embedding of `DataFillArray.prepareRSRCData` (LVdatafill.py lines
529-535): each stored dimension as a 4-byte unsigned integer, then the
concatenated child encodings. -/
def arrayPrepareRSRCData {α : Type} (encodeChild : α → List Nat)
    (dims : List Nat) (value : List α) : Except PyErr (List Nat) :=
  if dims.all (fun d => d < 2 ^ 32) then
    .ok (dims.flatMap (fun d => toBytesBE 4 d) ++ value.flatMap encodeChild)
  else .error .overflowError

/-- One entry of the structured-text form of an array: either a `dim`-tagged
dimension value or a child element (whose tag is the child's type tag, never
the literal `dim`). -/
inductive ArrayXmlEntry (χ : Type) where
  | dim (digits : List Nat)
  | elem (c : χ)
deriving DecidableEq

/-- Embedding of `DataFillArray.exportXML` (LVdatafill.py lines 565-572):
dimension values as individually tagged entries in declared order, followed
by one tagged entry per element. -/
def arrayExportXML {α χ : Type} (encodeChildXML : α → χ) (dims : List Nat)
    (value : List α) : List (ArrayXmlEntry χ) :=
  dims.map (fun d => .dim (natDecimalDigits d)) ++
    value.map (fun v => .elem (encodeChildXML v))

/-- Embedding of `DataFillArray.initWithXML` (LVdatafill.py lines 547-558):
entries tagged `dim` are appended to the dimension list, all others are
decoded as elements, in document order. -/
def arrayInitWithXML {α χ : Type} (decodeChildXML : χ → α) :
    List (ArrayXmlEntry χ) → List Nat × List α
  | [] => ([], [])
  | .dim ds :: rest =>
    let r := arrayInitWithXML decodeChildXML rest
    (Nat.ofDigits 10 ds.reverse :: r.1, r.2)
  | .elem c :: rest =>
    let r := arrayInitWithXML decodeChildXML rest
    (r.1, decodeChildXML c :: r.2)

/-- Adapter presenting the integer codec as an array-element decoder. -/
def intElemDecode (size : Nat) (signed : Bool) (s : List Nat) :
    DecodeResult Int :=
  .ok (intInitWithRSRCParse size signed s).1 (intInitWithRSRCParse size signed s).2

/-- Embedding of `DataFillBool.initVersion` (LVdatafill.py lines 338-353):
the 16-bit boolean tag always uses 2 bytes; the plain boolean tag uses
1 byte from file version 4.5.0 on, else 2; any other tag raises
`RuntimeError`. -/
def boolInitVersion (ver : Version) (tdType : TDFullType) : Except PyErr Nat :=
  match tdType with
  | .BooleanU16 => .ok 2
  | .Boolean =>
    if isGreaterOrEqVersion ver 4 5 0 0 then .ok 1 else .ok 2
  | _ => .error .runtimeError

/-- Embedding of `DataFillBool.initWithRSRCParse` (LVdatafill.py lines
355-357): resolve the width, then read that many bytes unsigned. -/
def boolInitWithRSRCParse (ver : Version) (tdType : TDFullType) (s : List Nat) :
    DecodeResult Nat :=
  match boolInitVersion ver tdType with
  | .error e => .err e s
  | .ok size => .ok (fromBytesBE (s.take size)) (s.drop size)

/-- Embedding of `DataFillBool.prepareRSRCData` (LVdatafill.py lines
359-362): write the value on the resolved width. -/
def boolPrepareRSRCData (size : Nat) (value : Nat) : Except PyErr (List Nat) :=
  if value < 2 ^ (8 * size) then .ok (toBytesBE size value)
  else .error .overflowError

/-- Embedding of `DataFillPtr.initWithRSRCParse` (LVdatafill.py lines
1366-1371): a 4-byte unsigned value below version 8.6.0.1, else no bytes
and the absent marker. -/
def ptrInitWithRSRCParse (ver : Version) (s : List Nat) :
    Option Nat × List Nat :=
  if isSmallerVersion ver 8 6 0 1 then
    (some (fromBytesBE (s.take 4)), s.drop 4)
  else (none, s)

/-- Embedding of `DataFillPtr.prepareRSRCData` (LVdatafill.py lines
1373-1378): 4 bytes below version 8.6.0.1 (where `int(None)` would raise
`TypeError` on an absent value), else an empty buffer. -/
def ptrPrepareRSRCData (ver : Version) (value : Option Nat) :
    Except PyErr (List Nat) :=
  if isSmallerVersion ver 8 6 0 1 then
    match value with
    | some v => if v < 2 ^ 32 then .ok (toBytesBE 4 v) else .error .overflowError
    | none => .error .typeError
  else .ok []

/-- Embedding of `DataFillPtr.expectedRSRCSize` (LVdatafill.py lines
1380-1385). -/
def ptrExpectedRSRCSize (ver : Version) : Nat :=
  if isSmallerVersion ver 8 6 0 1 then 4 else 0

/-- Text form written by `DataFillPtr.exportXML` (LVdatafill.py lines
1394-1396), `"{}".format(self.value)`: the literal `None` marker for an
absent value, otherwise the decimal integer form. -/
inductive PtrXMLText where
  | noneMarker
  | intText (digits : List Nat)
deriving DecidableEq

/-- Embedding of `DataFillPtr.exportXML`. -/
def ptrExportXML (value : Option Nat) : PtrXMLText :=
  match value with
  | none => .noneMarker
  | some v => .intText (natDecimalDigits v)

/-- Embedding of `DataFillPtr.initWithXML` (LVdatafill.py lines 1387-1392):
text equal to the `None` marker yields the absent value, anything else is
parsed as an integer. -/
def ptrInitWithXML (t : PtrXMLText) : Option Nat :=
  match t with
  | .noneMarker => none
  | .intText ds => some (Nat.ofDigits 10 ds.reverse)

/-- Client list used by the special-cluster claims: an 8-client cluster
descriptor, enumerated as `(cli_idx, td_idx)` pairs. -/
def clients8 : List (Nat × Nat) :=
  [(0, 100), (1, 101), (2, 102), (3, 103), (4, 104), (5, 105), (6, 106), (7, 107)]

/-! Helper lemmas about the byte-level primitives. -/

theorem toBytesBE_length (n v : Nat) : (toBytesBE n v).length = n := by
  induction n generalizing v with
  | zero => rfl
  | succ m ih => simp [toBytesBE, ih]

theorem fromBytesBE_append_singleton (xs : List Nat) (b : Nat) :
    fromBytesBE (xs ++ [b]) = fromBytesBE xs * 256 + b := by
  simp [fromBytesBE, List.foldl_append]

theorem fromBytesBE_toBytesBE (n v : Nat) :
    fromBytesBE (toBytesBE n v) = v % 256 ^ n := by
  induction n generalizing v with
  | zero =>
    simp only [toBytesBE, fromBytesBE, List.foldl_nil, pow_zero, Nat.mod_one]
  | succ m ih =>
    rw [toBytesBE, fromBytesBE_append_singleton, ih, pow_succ, Nat.mul_comm (256 ^ m) 256,
      Nat.mod_mul]
    omega

theorem pow256_eq (n : Nat) : (256 : Nat) ^ n = 2 ^ (8 * n) := by
  rw [Nat.pow_mul]

theorem fromBytesBE_toBytesBE_of_lt {n v : Nat} (h : v < 2 ^ (8 * n)) :
    fromBytesBE (toBytesBE n v) = v := by
  rw [fromBytesBE_toBytesBE, Nat.mod_eq_of_lt]
  rw [pow256_eq]
  exact h

theorem take_append_len {α : Type} (xs ys : List α) (n : Nat) (h : xs.length = n) :
    (xs ++ ys).take n = xs := by
  subst h
  exact List.take_left xs ys

theorem drop_append_len {α : Type} (xs ys : List α) (n : Nat) (h : xs.length = n) :
    (xs ++ ys).drop n = ys := by
  subst h
  exact List.drop_left xs ys

theorem int_emod_of_neg {v M : Int} (h1 : -M ≤ v) (h2 : v < 0) : v % M = v + M := by
  have h3 : (v + M * 1) % M = v % M := Int.add_mul_emod_self_left v M 1
  rw [mul_one] at h3
  rw [← h3, Int.emod_eq_of_lt (by omega) (by omega)]

theorem natDecimalDigits_roundtrip (n : Nat) :
    Nat.ofDigits 10 (natDecimalDigits n).reverse = n := by
  rw [natDecimalDigits, List.reverse_reverse, Nat.ofDigits_digits]

/-! Helper lemmas about the integer codec. -/

theorem intPrepare_parse_roundtrip (size : Nat) (signed : Bool) (v : Int)
    (bs rest : List Nat) (hs : 1 ≤ size)
    (he : intPrepareRSRCData size signed v = .ok bs) :
    intInitWithRSRCParse size signed (bs ++ rest) = (v, rest) := by
  cases signed with
  | false =>
    rw [intPrepareRSRCData] at he
    simp only [Bool.false_eq_true, if_false] at he
    split at he
    case isTrue h =>
      injection he with hbs
      subst hbs
      have hcast : ((2 ^ (8 * size) : Nat) : Int) = 2 ^ (8 * size) := by push_cast; ring
      have hv : v.toNat < 2 ^ (8 * size) := by omega
      have hlen : (toBytesBE size v.toNat).length = size := toBytesBE_length size v.toNat
      rw [intInitWithRSRCParse, take_append_len _ _ _ hlen, drop_append_len _ _ _ hlen]
      simp only [intFromBytes, hlen, fromBytesBE_toBytesBE_of_lt hv]
      split
      case isTrue hcnd => exact absurd hcnd.1 (by simp)
      case isFalse hcnd =>
        simp only [Prod.mk.injEq, and_true]
        omega
    case isFalse h => exact absurd he (by simp)
  | true =>
    rw [intPrepareRSRCData] at he
    simp only [if_true] at he
    split at he
    case isTrue h =>
      injection he with hbs
      subst hbs
      obtain ⟨t, ht⟩ : ∃ t, 8 * size = t + 1 := ⟨8 * size - 1, by omega⟩
      have htt : 8 * size - 1 = t := by omega
      rw [htt] at h
      have hA : (0 : Int) < 2 ^ t := by positivity
      have hMpos : (0 : Int) < 2 ^ (8 * size) := by positivity
      have hMAi : (2 ^ (8 * size) : Int) = 2 * 2 ^ t := by
        rw [ht, pow_succ]
        ring
      have hMA : (2 ^ (8 * size) : Nat) = 2 * 2 ^ t := by
        rw [ht, pow_succ]
        ring
      set u : Nat := (v % (2 ^ (8 * size) : Int)).toNat with hudef
      have hunn : (0 : Int) ≤ v % (2 ^ (8 * size) : Int) := Int.emod_nonneg v (by omega)
      have hult : v % (2 ^ (8 * size) : Int) < 2 ^ (8 * size) := Int.emod_lt_of_pos v hMpos
      have huc : (u : Int) = v % (2 ^ (8 * size) : Int) := Int.toNat_of_nonneg hunn
      have hcastM : ((2 ^ (8 * size) : Nat) : Int) = 2 ^ (8 * size) := by push_cast; ring
      have hcastA : ((2 ^ t : Nat) : Int) = 2 ^ t := by push_cast; ring
      have huM : u < 2 ^ (8 * size) := by omega
      have hlen : (toBytesBE size u).length = size := toBytesBE_length size u
      rw [intInitWithRSRCParse, take_append_len _ _ _ hlen, drop_append_len _ _ _ hlen]
      simp only [intFromBytes, hlen, fromBytesBE_toBytesBE_of_lt huM]
      rcases le_or_lt 0 v with hv0 | hv0
      · have hemod : v % (2 ^ (8 * size) : Int) = v := Int.emod_eq_of_lt hv0 (by omega)
        have hu : (u : Int) = v := by rw [huc, hemod]
        have hcond : ¬ (2 ^ (8 * size) : Nat) ≤ 2 * u := by omega
        split
        case isTrue hcnd => exact absurd hcnd.2 hcond
        case isFalse hcnd =>
          simp only [Prod.mk.injEq, and_true]
          omega
      · have hemod : v % (2 ^ (8 * size) : Int) = v + 2 ^ (8 * size) :=
          int_emod_of_neg (by omega) hv0
        have hu : (u : Int) = v + 2 ^ (8 * size) := by rw [huc, hemod]
        have hcond : (2 ^ (8 * size) : Nat) ≤ 2 * u := by omega
        split
        case isTrue hcnd =>
          simp only [Prod.mk.injEq, and_true]
          omega
        case isFalse hcnd => exact absurd ⟨trivial, hcond⟩ hcnd
    case isFalse h => exact absurd he (by simp)

theorem intText_roundtrip (v : Int) :
    intInitWithXMLText (intExportXMLText v) = v := by
  rw [intInitWithXMLText, intExportXMLText]
  simp only [natDecimalDigits_roundtrip]
  by_cases h : v < 0
  · rw [if_pos (decide_eq_true h)]
    omega
  · rw [if_neg (by simp [h])]
    omega

/-! Helper lemmas about the string codec. -/

theorem stringParse_roundtrip (value rest : List Nat) (h : value.length < 2 ^ 32) :
    stringInitWithRSRCParse (toBytesBE 4 value.length ++ value ++ rest)
      = (value, rest) := by
  have hlen : (toBytesBE 4 value.length).length = 4 := toBytesBE_length 4 value.length
  rw [stringInitWithRSRCParse, List.append_assoc,
    take_append_len _ _ _ hlen, drop_append_len _ _ _ hlen,
    fromBytesBE_toBytesBE_of_lt (by simpa using h),
    take_append_len _ _ _ rfl, drop_append_len _ _ _ rfl]

/-! Helper lemmas about the array codec. -/

theorem readDims_flatMap (dims : List Nat) (rest : List Nat)
    (h : ∀ d ∈ dims, d < 2 ^ 32) :
    readDims dims.length (dims.flatMap (fun d => toBytesBE 4 d) ++ rest)
      = (dims, rest) := by
  induction dims with
  | nil => simp [readDims]
  | cons d ds ih =>
    rw [List.length_cons, List.flatMap_cons, List.append_assoc, readDims]
    have hlen : (toBytesBE 4 d).length = 4 := toBytesBE_length 4 d
    rw [take_append_len _ _ _ hlen, drop_append_len _ _ _ hlen,
      fromBytesBE_toBytesBE_of_lt (by simpa using h d (by simp)),
      ih (fun x hx => h x (by simp [hx]))]

theorem readDims_snd (n : Nat) (s : List Nat) :
    (readDims n s).2 = s.drop (4 * n) := by
  induction n generalizing s with
  | zero => simp [readDims]
  | succ m ih =>
    rw [readDims]
    simp only [ih, List.drop_drop]
    congr 1
    omega

theorem decodeElems_flatMap {α : Type} (decodeChild : List Nat → DecodeResult α)
    (encodeChild : α → List Nat) (value : List α) (rest : List Nat)
    (hc : ∀ v s, v ∈ value → decodeChild (encodeChild v ++ s) = .ok v s) :
    decodeElems decodeChild value.length (value.flatMap encodeChild ++ rest)
      = .ok value rest := by
  induction value with
  | nil => simp [decodeElems]
  | cons x xs ih =>
    have hx : decodeChild (encodeChild x ++ (xs.flatMap encodeChild ++ rest))
        = .ok x (xs.flatMap encodeChild ++ rest) := hc x _ (by simp)
    have hxs : decodeElems decodeChild xs.length (xs.flatMap encodeChild ++ rest)
        = .ok xs rest := ih (fun w s hw => hc w s (by simp [hw]))
    rw [List.length_cons, List.flatMap_cons, List.append_assoc, decodeElems]
    simp only [hx, hxs]

theorem arrayParse_roundtrip {α : Type} (decodeChild : List Nat → DecodeResult α)
    (encodeChild : α → List Nat) (dims : List Nat) (value : List α)
    (limit : Nat) (rest : List Nat)
    (hd : ∀ d ∈ dims, d < 2 ^ 32)
    (hlen : value.length = (dims.map (fun d => d &&& 0x7fffffff)).prod)
    (hlim : value.length ≤ limit)
    (hc : ∀ v s, v ∈ value → decodeChild (encodeChild v ++ s) = .ok v s) :
    arrayInitWithRSRCParse decodeChild dims.length limit true
      (dims.flatMap (fun d => toBytesBE 4 d) ++ value.flatMap encodeChild ++ rest)
      = .ok (dims, value) rest := by
  rw [arrayInitWithRSRCParse, List.append_assoc,
    readDims_flatMap dims (value.flatMap encodeChild ++ rest) hd]
  simp only
  rw [if_neg (by simp), ← hlen, if_neg (by omega),
    decodeElems_flatMap decodeChild encodeChild value rest hc]

/-- Decidable equality on `Except`, used to evaluate the embedded codecs on
concrete inputs. -/
instance {ε α : Type} [DecidableEq ε] [DecidableEq α] : DecidableEq (Except ε α) := fun x y =>
  match x, y with
  | .ok a, .ok b =>
    if h : a = b then isTrue (congrArg Except.ok h)
    else isFalse (fun hc => h (Except.ok.inj hc))
  | .error e, .error f =>
    if h : e = f then isTrue (congrArg Except.error h)
    else isFalse (fun hc => h (Except.error.inj hc))
  | .ok _, .error _ => isFalse (fun hc => Except.noConfusion hc)
  | .error _, .ok _ => isFalse (fun hc => Except.noConfusion hc)

/-! Helper lemmas about the special DSTM cluster. -/

theorem isSpecialDSTMClusterElement_zero (ver : Version) (tm_flags : Nat) :
    isSpecialDSTMClusterElement ver 0 tm_flags = false := by
  rw [isSpecialDSTMClusterElement]
  split
  · split <;> rfl
  · split
    · rfl
    · split
      · rfl
      · split <;> rfl

theorem specialClusterSetTDRebindsLoop_nil (ver : Version) (tm_flags : Nat)
    (clients : List (Nat × Nat)) (skip : Bool) :
    specialClusterSetTDRebindsLoop ver tm_flags clients skip 0 = [] := by
  induction clients generalizing skip with
  | nil => rfl
  | cons c rest ih =>
    obtain ⟨ci, ti⟩ := c
    rw [specialClusterSetTDRebindsLoop,
      if_pos (isSpecialDSTMClusterElement_zero ver tm_flags)]
    exact ih skip

/-! Helper lemmas about the array structured-text codec. -/

theorem arrayInitWithXML_elems {α χ : Type} (decodeChildXML : χ → α)
    (encodeChildXML : α → χ) (value : List α)
    (hc : ∀ v ∈ value, decodeChildXML (encodeChildXML v) = v) :
    arrayInitWithXML decodeChildXML (value.map (fun v => .elem (encodeChildXML v)))
      = ([], value) := by
  induction value with
  | nil => rfl
  | cons x xs ih =>
    rw [List.map_cons, arrayInitWithXML, ih (fun w hw => hc w (by simp [hw]))]
    simp [hc x (by simp)]

theorem arrayXML_roundtrip {α χ : Type} (decodeChildXML : χ → α)
    (encodeChildXML : α → χ) (dims : List Nat) (value : List α)
    (hc : ∀ v ∈ value, decodeChildXML (encodeChildXML v) = v) :
    arrayInitWithXML decodeChildXML (arrayExportXML encodeChildXML dims value)
      = (dims, value) := by
  induction dims with
  | nil =>
    rw [arrayExportXML, List.map_nil, List.nil_append]
    exact arrayInitWithXML_elems decodeChildXML encodeChildXML value hc
  | cons d ds ih =>
    rw [arrayExportXML, List.map_cons, List.cons_append, arrayInitWithXML]
    have hrest : (ds.map (fun x => ArrayXmlEntry.dim (natDecimalDigits x)) ++
        value.map (fun v => ArrayXmlEntry.elem (encodeChildXML v)))
        = arrayExportXML encodeChildXML ds value := rfl
    rw [hrest, ih]
    simp [natDecimalDigits_roundtrip]

/-! Helper lemmas about the block codec. -/

theorem blockPrepare_result_length (blkSize : Nat) (st : BlockState)
    (h : st.value.length ≠ blkSize) :
    (blockPrepareRSRCData blkSize st).1.value.length = blkSize ∧
    (blockPrepareRSRCData blkSize st).2 = (blockPrepareRSRCData blkSize st).1.value := by
  rw [blockPrepareRSRCData, if_pos h]
  by_cases hlt : st.value.length < blkSize
  · rw [if_pos hlt]
    refine ⟨?_, rfl⟩
    simp only [List.length_append, List.length_replicate]
    omega
  · rw [if_neg hlt]
    refine ⟨?_, rfl⟩
    simp only [List.length_take]
    omega

theorem blockPrepare_fixed (blkSize : Nat) (st : BlockState)
    (h : st.value.length = blkSize) :
    blockPrepareRSRCData blkSize st = (st, st.value) := by
  rw [blockPrepareRSRCData, if_neg (by omega)]

/-! Claim theorems. -/

/-- Claim C1, counterexample: the claim states that with flag bit 0x0004 set
and a file version below 10.0.0.2 only client position 1 is special, and at
or above 10.0.0.2 only position 2.  At version 9.0.0.0 (below 10.0.0.2) the
code accepts position 2 and rejects position 1, the opposite. -/
theorem C1_counterexample :
    isSpecialDSTMClusterElement ⟨9, 0, 0, 0⟩ 1 0x0004 = false ∧
    isSpecialDSTMClusterElement ⟨9, 0, 0, 0⟩ 2 0x0004 = true := by
  decide

/-- Claim C1, amended: for a special cluster element test with flag bit
0x0004 set in `tm_flags`, when the file version is below 10.0.0.2 only
client position 2 qualifies as special; at or above 10.0.0.2 only position 1
qualifies; no other position qualifies under this flag. -/
theorem C1_special_flag4_version_gate (ver : Version) (idx tm_flags : Nat)
    (h : tm_flags &&& 0x0004 ≠ 0) :
    isSpecialDSTMClusterElement ver idx tm_flags = true ↔
      ((isSmallerVersion ver 10 0 0 2 = true ∧ idx = 2) ∨
       (isSmallerVersion ver 10 0 0 2 = false ∧ idx = 1)) := by
  rw [isSpecialDSTMClusterElement, if_pos h]
  cases hv : isSmallerVersion ver 10 0 0 2 <;> simp

/-- Claim C1, witness: at version 9.0.0.0 with flag word 0x0004, position 2
is special. -/
theorem C1_special_flag4_version_gate_witness :
    isSpecialDSTMClusterElement ⟨9, 0, 0, 0⟩ 2 0x0004 = true :=
  (C1_special_flag4_version_gate ⟨9, 0, 0, 0⟩ 2 0x0004 (by decide)).mpr
    (Or.inl ⟨by decide, rfl⟩)

/-- Claim C2: decode of a special DSTM cluster over an 8-client descriptor
with flag 0x0010 creates exactly 3 entries bound to client positions 1, 2, 3
(2 entries at positions 2, 3 with 0x0200 additionally set), but the
re-binding loop of `setTD` tests the inclusion predicate on its own entry
counter (which starts at 0, a position that never qualifies) instead of the
enumeration position, so it re-binds no child at all, for any version, flag
word and client list — it does not reproduce the decode-time decisions. -/
theorem C2_setTD_rebind_mismatch :
    specialClusterInitEntries ⟨14, 0, 0, 0⟩ 0x0010 clients8
      = [(1, 101), (2, 102), (3, 103)] ∧
    specialClusterInitEntries ⟨14, 0, 0, 0⟩ 0x0210 clients8
      = [(2, 102), (3, 103)] ∧
    (∀ (ver : Version) (tm_flags : Nat) (clients : List (Nat × Nat)),
      specialClusterSetTDRebinds ver tm_flags clients = []) :=
  ⟨by decide, by decide,
   fun ver tm_flags clients =>
     specialClusterSetTDRebindsLoop_nil ver tm_flags clients _⟩

/-- Claim C3: a measurement-data binary decode below file version 7.0.0.2
fails before touching the stream, but with a `NameError` (the raise
statement's message reads the undefined name `sub_td`), not the claimed
NotImplemented condition; an unrecognized flavor does fail with
`NotImplementedError`, also consuming no bytes. -/
theorem C3_measure_data_version_gate :
    (∀ (flavor : MDFlavor) (s : List Nat),
      measureDataInitWithRSRCParse (fun _ st => DecodeResult.ok (0 : Nat) st)
        ⟨6, 0, 0, 0⟩ flavor s = .err .nameError s) ∧
    measureDataInitWithRSRCParse (fun _ st => DecodeResult.ok (0 : Nat) st)
        ⟨6, 0, 0, 0⟩ .float64Waveform [1, 2, 3] = .err .nameError [1, 2, 3] ∧
    measureDataInitWithRSRCParse (fun _ st => DecodeResult.ok (0 : Nat) st)
        ⟨8, 6, 0, 1⟩ (.other 99) [1, 2, 3] = .err .notImplemented [1, 2, 3] :=
  ⟨fun _ _ => rfl, rfl, rfl⟩

/-- Claim C4: `expectedRSRCSize` does not agree with the length of
`prepareRSRCData` on the three variants the claim names.  For an I/O refnum
with a tag-kind descriptor at version 6.0.0.0 the method raises
`UnboundLocalError` (undefined `data_buf`) although encode produces a
4-byte-length-prefixed string; for the user-defined class-instance refnum it
raises `UnboundLocalError` (undefined `str_len`); for an opaque block whose
stored value length (3) differs from the declared block size (5),
`expectedRSRCSize` returns 3 while encode returns 5 bytes. -/
theorem C4_expected_size_mismatch :
    ioRefnumExpectedRSRCSize ⟨6, 0, 0, 0⟩ .VisaRef = .error .nameError ∧
    ioRefnumPrepareRSRCData ⟨6, 0, 0, 0⟩ .VisaRef (.bytesVal [1, 2, 3])
      = .ok [0, 0, 0, 3, 1, 2, 3] ∧
    udClassInstExpectedRSRCSize [] [] = .error .nameError ∧
    blockExpectedRSRCSize (blockInitWithRSRCParse 5 [1, 2, 3]).1 = 3 ∧
    (blockPrepareRSRCData 5 (blockInitWithRSRCParse 5 [1, 2, 3]).1).2.length = 5 := by
  decide

/-- Claim C5: round-trip of the integer, string and array codecs.  For every
integer type tag, an encodable value decodes back from its binary encoding
and from its decimal text form; a string whose length fits the 4-byte prefix
decodes back from its binary encoding, and its text form round-trips through
the (inverse) escaping and text-encoding collaborators; an array whose
stored element count matches its masked extents and respects the data limit
decodes back from its binary encoding, and its structured-text form
round-trips element-wise — covering boundary values such as 0, the extreme
signed/unsigned values per width, the empty string, and an empty array with
a zero extent. -/
theorem C5_roundtrip :
    (∀ (tdType : TDFullType) (size : Nat) (signed : Bool) (v : Int)
        (bs rest : List Nat),
      intTypeSpec tdType = .ok (size, signed) →
      intPrepareRSRCData size signed v = .ok bs →
      intInitWithRSRCParse size signed (bs ++ rest) = (v, rest)) ∧
    (∀ v : Int, intInitWithXMLText (intExportXMLText v) = v) ∧
    (∀ (value rest bs : List Nat),
      stringPrepareRSRCData value = .ok bs →
      stringInitWithRSRCParse (bs ++ rest) = (value, rest)) ∧
    (∀ (T : Type) (textDecode : List Nat → T) (textEncode : T → List Nat)
        (escapeStore unescapeStore : T → T) (value : List Nat),
      (∀ x, unescapeStore (escapeStore x) = x) →
      (∀ w, textEncode (textDecode w) = w) →
      stringInitWithXMLText textEncode unescapeStore
        (stringExportXMLText textDecode escapeStore value) = value) ∧
    (∀ (α : Type) (decodeChild : List Nat → DecodeResult α)
        (encodeChild : α → List Nat) (dims : List Nat) (value : List α)
        (limit : Nat) (bs rest : List Nat),
      (∀ d ∈ dims, d < 2 ^ 32) →
      value.length = (dims.map (fun d => d &&& 0x7fffffff)).prod →
      value.length ≤ limit →
      (∀ v s, v ∈ value → decodeChild (encodeChild v ++ s) = .ok v s) →
      arrayPrepareRSRCData encodeChild dims value = .ok bs →
      arrayInitWithRSRCParse decodeChild dims.length limit true (bs ++ rest)
        = .ok (dims, value) rest) ∧
    (∀ (α χ : Type) (decodeChildXML : χ → α) (encodeChildXML : α → χ)
        (dims : List Nat) (value : List α),
      (∀ v ∈ value, decodeChildXML (encodeChildXML v) = v) →
      arrayInitWithXML decodeChildXML (arrayExportXML encodeChildXML dims value)
        = (dims, value)) := by
  refine ⟨?_, intText_roundtrip, ?_, ?_, ?_, ?_⟩
  · intro tdType size signed v bs rest hspec he
    have hs : 1 ≤ size := by
      cases tdType <;>
        first
        | exact (Except.noConfusion hspec)
        | (injection hspec with hp
           injection hp with h1 h2
           omega)
    exact intPrepare_parse_roundtrip size signed v bs rest hs he
  · intro value rest bs he
    rw [stringPrepareRSRCData] at he
    split at he
    case isTrue h =>
      injection he with hbs
      subst hbs
      exact stringParse_roundtrip value rest h
    case isFalse h => exact absurd he (by simp)
  · intro T textDecode textEncode escapeStore unescapeStore value hu ht
    rw [stringExportXMLText, stringInitWithXMLText, hu, ht]
  · intro α decodeChild encodeChild dims value limit bs rest hd hlen hlim hc he
    rw [arrayPrepareRSRCData] at he
    split at he
    case isTrue hall =>
      injection he with hbs
      subst hbs
      rw [List.append_assoc]
      have := arrayParse_roundtrip decodeChild encodeChild dims value limit rest
        hd hlen hlim hc
      rw [← List.append_assoc]
      exact this
    case isFalse hall => exact absurd he (by simp)
  · intro α χ decodeChildXML encodeChildXML dims value hc
    exact arrayXML_roundtrip decodeChildXML encodeChildXML dims value hc

/-- Claim C5, witness: the signed byte minimum round-trips in binary and in
text, a 1-byte string round-trips in binary, and the empty array with one
zero extent round-trips in binary. -/
theorem C5_roundtrip_witness :
    intInitWithRSRCParse 1 true ([0x80] ++ [7]) = (-128, [7]) ∧
    intInitWithXMLText (intExportXMLText (-5)) = -5 ∧
    stringInitWithRSRCParse ([0, 0, 0, 1, 65] ++ [9]) = ([65], [9]) ∧
    arrayInitWithRSRCParse (intElemDecode 2 false) 1 0 true
        ([0, 0, 0, 0] ++ [3]) = .ok ([0], []) [3] := by
  refine ⟨?_, C5_roundtrip.2.1 (-5), ?_, ?_⟩
  · exact C5_roundtrip.1 .NumInt8 1 true (-128) [0x80] [7] (by decide) (by decide)
  · exact C5_roundtrip.2.2.1 [65] [9] [0, 0, 0, 1, 65] (by decide)
  · exact C5_roundtrip.2.2.2.2.1 Int (intElemDecode 2 false)
      (fun x => toBytesBE 2 x.toNat) [0] [] 0 [0, 0, 0, 0] [3]
      (by decide) (by decide) (by decide)
      (fun v s hv => absurd hv (by simp)) (by decide)

/-- Claim C6: for a float-tag user-defined tag refnum, binary decode does
read, after the primary length-prefixed string, two length-prefixed byte
strings, a bare 4-byte integer (`usrdef3`) and a final length-prefixed byte
string; but binary encode does not mirror this: it evaluates
`len(self.usrdef3)` on the integer and raises `TypeError`, so encoding the
exact record just decoded produces no buffer at all. -/
theorem C6_float_tag_encode :
    udTagInitWithRSRCParse ⟨14, 0, 0, 0⟩ .UsrDefTagFlt
        ([0, 0, 0, 1, 0x41,
          0, 0, 0, 1, 0xAA,
          0, 0, 0, 0,
          0, 0, 0, 7,
          0, 0, 0, 2, 1, 2] ++ [9, 9])
      = (⟨[0x41], some [0xAA], some [], some 7, some [1, 2]⟩, [9, 9]) ∧
    udTagPrepareRSRCData ⟨14, 0, 0, 0⟩ .UsrDefTagFlt
        ⟨[0x41], some [0xAA], some [], some 7, some [1, 2]⟩
      = .error .typeError := by
  decide

/-- Claim C7: array binary decode reads one 4-byte extent per declared
dimension; when the product of the masked extents exceeds the configured
limit it fails with the SizeLimitExceeded condition having consumed exactly
the dimension bytes and no element bytes; otherwise it decodes exactly that
many elements, so for dimensions [2, 3] and a 2-byte element type it decodes
6 elements, consuming exactly 8 + 6 * 2 bytes. -/
theorem C7_array_decode :
    (∀ (α : Type) (decodeChild : List Nat → DecodeResult α)
        (nDims limit : Nat) (s : List Nat),
      ((readDims nDims s).1.map (fun d => d &&& 0x7fffffff)).prod > limit →
      arrayInitWithRSRCParse decodeChild nDims limit true s
        = .err .sizeLimitExceeded (s.drop (4 * nDims))) ∧
    (∀ (xs : List Int) (limit : Nat) (rest : List Nat),
      (∀ x ∈ xs, 0 ≤ x ∧ x < 2 ^ 16) →
      xs.length = 6 → 6 ≤ limit →
      arrayInitWithRSRCParse (intElemDecode 2 false) 2 limit true
          (([2, 3] : List Nat).flatMap (fun d => toBytesBE 4 d) ++
            xs.flatMap (fun x => toBytesBE 2 x.toNat) ++ rest)
        = .ok ([2, 3], xs) rest) := by
  constructor
  · intro α decodeChild nDims limit s hgt
    simp only [arrayInitWithRSRCParse]
    rw [if_neg (by simp), if_pos hgt, readDims_snd]
  · intro xs limit rest hb hlen hlim
    have hd : ∀ d ∈ ([2, 3] : List Nat), d < 2 ^ 32 := by decide
    have h216 : (2 : Int) ^ (8 * 2) = 2 ^ 16 := by norm_num
    have hc : ∀ v s, v ∈ xs →
        intElemDecode 2 false (toBytesBE 2 v.toNat ++ s) = .ok v s := by
      intro v s hv
      have hv2 := hb v hv
      have henc : intPrepareRSRCData 2 false v = .ok (toBytesBE 2 v.toNat) := by
        rw [intPrepareRSRCData]
        simp only [Bool.false_eq_true, if_false]
        rw [if_pos ⟨hv2.1, by rw [h216]; exact hv2.2⟩]
      have hrt := intPrepare_parse_roundtrip 2 false v (toBytesBE 2 v.toNat) s
        (by omega) henc
      rw [intElemDecode, hrt]
    have h6 : xs.length = (([2, 3] : List Nat).map
        (fun d => d &&& 0x7fffffff)).prod := by
      rw [hlen]
      decide
    exact arrayParse_roundtrip (intElemDecode 2 false)
      (fun x => toBytesBE 2 x.toNat) [2, 3] xs limit rest hd h6 (by omega) hc

/-- Claim C7, witness: a one-dimensional array with extent 2 over limit 0
fails with the SizeLimitExceeded condition right after its dimension bytes,
and a [2, 3] array of 2-byte elements decodes its 6 elements exactly. -/
theorem C7_array_decode_witness :
    arrayInitWithRSRCParse (fun s => DecodeResult.ok (0 : Nat) s) 1 0 true
        [0, 0, 0, 2, 5, 5]
      = .err .sizeLimitExceeded [5, 5] ∧
    arrayInitWithRSRCParse (intElemDecode 2 false) 2 6 true
        (([2, 3] : List Nat).flatMap (fun d => toBytesBE 4 d) ++
          ([0, 1, 2, 3, 4, 65535] : List Int).flatMap
            (fun x => toBytesBE 2 x.toNat) ++ [9])
      = .ok ([2, 3], [0, 1, 2, 3, 4, 65535]) [9] := by
  constructor
  · exact C7_array_decode.1 Nat (fun s => DecodeResult.ok 0 s) 1 0
      [0, 0, 0, 2, 5, 5] (by decide)
  · exact C7_array_decode.2 [0, 1, 2, 3, 4, 65535] 6 [9] (by decide)
      (by decide) (by decide)

/-- Claim C8: the plain boolean tag uses 2 bytes below file version 4.5.0
and 1 byte at or above it (so 4.0.0.0 gives 2 bytes and 5.0.0.0 gives
1 byte), the 16-bit-boolean tag always uses 2 bytes, and decode consumes
exactly — and encode produces exactly — that many bytes. -/
theorem C8_bool_width :
    (∀ ver : Version, isSmallerVersion ver 4 5 0 0 = true →
      boolInitVersion ver .Boolean = .ok 2) ∧
    (∀ ver : Version, isSmallerVersion ver 4 5 0 0 = false →
      boolInitVersion ver .Boolean = .ok 1) ∧
    boolInitVersion ⟨4, 0, 0, 0⟩ .Boolean = .ok 2 ∧
    boolInitVersion ⟨5, 0, 0, 0⟩ .Boolean = .ok 1 ∧
    (∀ ver : Version, boolInitVersion ver .BooleanU16 = .ok 2) ∧
    (∀ (ver : Version) (tdType : TDFullType) (size : Nat) (s : List Nat),
      boolInitVersion ver tdType = .ok size →
      boolInitWithRSRCParse ver tdType s
        = .ok (fromBytesBE (s.take size)) (s.drop size)) ∧
    (∀ size value : Nat, value < 2 ^ (8 * size) →
      boolPrepareRSRCData size value = .ok (toBytesBE size value) ∧
      (toBytesBE size value).length = size) := by
  refine ⟨?_, ?_, rfl, rfl, fun _ => rfl, ?_, ?_⟩
  · intro ver h
    simp [boolInitVersion, isGreaterOrEqVersion, h]
  · intro ver h
    simp [boolInitVersion, isGreaterOrEqVersion, h]
  · intro ver tdType size s h
    simp only [boolInitWithRSRCParse, h]
  · intro size value hv
    exact ⟨by rw [boolPrepareRSRCData, if_pos hv], toBytesBE_length size value⟩

/-- Claim C8, witness: version 4.0.0.0 reads and writes 2 bytes for the
plain boolean tag, version 5.0.0.0 reads and writes 1 byte, and the
16-bit-boolean tag uses 2 bytes. -/
theorem C8_bool_width_witness :
    boolInitWithRSRCParse ⟨4, 0, 0, 0⟩ .Boolean [1, 2, 3]
      = .ok 258 [3] ∧
    boolInitWithRSRCParse ⟨5, 0, 0, 0⟩ .Boolean [1, 2, 3]
      = .ok 1 [2, 3] ∧
    boolInitWithRSRCParse ⟨5, 0, 0, 0⟩ .BooleanU16 [1, 2, 3]
      = .ok 258 [3] ∧
    boolPrepareRSRCData 2 258 = .ok [1, 2] ∧
    boolPrepareRSRCData 1 1 = .ok [1] := by
  refine ⟨?_, ?_, ?_, ?_, ?_⟩
  · exact C8_bool_width.2.2.2.2.2.1 ⟨4, 0, 0, 0⟩ .Boolean 2 [1, 2, 3] (by decide)
  · exact C8_bool_width.2.2.2.2.2.1 ⟨5, 0, 0, 0⟩ .Boolean 1 [1, 2, 3] (by decide)
  · exact C8_bool_width.2.2.2.2.2.1 ⟨5, 0, 0, 0⟩ .BooleanU16 2 [1, 2, 3] (by decide)
  · exact (C8_bool_width.2.2.2.2.2.2 2 258 (by decide)).1
  · exact (C8_bool_width.2.2.2.2.2.2 1 1 (by decide)).1

/-- Claim C9: below file version 8.6.0.1 the pointer decode consumes exactly
4 bytes and encode produces exactly 4 bytes; at or above 8.6.0.1 decode
consumes no bytes and stores the absent marker, encode produces no bytes,
the expected size is 0, and the text form is the literal none marker, which
is distinct from every integer text form and round-trips. -/
theorem C9_ptr_version_gate :
    (∀ (ver : Version) (s : List Nat), isSmallerVersion ver 8 6 0 1 = true →
      ptrInitWithRSRCParse ver s = (some (fromBytesBE (s.take 4)), s.drop 4)) ∧
    (∀ (ver : Version) (v : Nat), isSmallerVersion ver 8 6 0 1 = true →
      v < 2 ^ 32 →
      ptrPrepareRSRCData ver (some v) = .ok (toBytesBE 4 v) ∧
      (toBytesBE 4 v).length = 4) ∧
    (∀ (ver : Version) (s : List Nat), isSmallerVersion ver 8 6 0 1 = false →
      ptrInitWithRSRCParse ver s = (none, s) ∧
      ptrPrepareRSRCData ver none = .ok [] ∧
      ptrExpectedRSRCSize ver = 0) ∧
    ptrExportXML none = .noneMarker ∧
    (∀ v : Nat, ptrExportXML (some v) ≠ .noneMarker) ∧
    (∀ v : Option Nat, ptrInitWithXML (ptrExportXML v) = v) := by
  refine ⟨?_, ?_, ?_, rfl, ?_, ?_⟩
  · intro ver s h
    rw [ptrInitWithRSRCParse, if_pos h]
  · intro ver v h hv
    refine ⟨?_, toBytesBE_length 4 v⟩
    rw [ptrPrepareRSRCData, if_pos h, if_pos hv]
  · intro ver s h
    refine ⟨?_, ?_, ?_⟩
    · rw [ptrInitWithRSRCParse, if_neg (by simp [h])]
    · rw [ptrPrepareRSRCData, if_neg (by simp [h])]
    · rw [ptrExpectedRSRCSize, if_neg (by simp [h])]
  · intro v hcontra
    exact PtrXMLText.noConfusion hcontra
  · intro v
    cases v with
    | none => rfl
    | some n =>
      rw [ptrExportXML, ptrInitWithXML, natDecimalDigits_roundtrip]

/-- Claim C9, witness: at version 8.5.0.0 a pointer reads its 4-byte value,
and at version 8.6.0.1 it reads nothing, writes nothing, expects size 0 and
prints the none marker. -/
theorem C9_ptr_version_gate_witness :
    ptrInitWithRSRCParse ⟨8, 5, 0, 0⟩ [0, 0, 1, 2, 9]
      = (some 258, [9]) ∧
    ptrPrepareRSRCData ⟨8, 5, 0, 0⟩ (some 258) = .ok [0, 0, 1, 2] ∧
    ptrInitWithRSRCParse ⟨8, 6, 0, 1⟩ [0, 0, 1, 2, 9]
      = (none, [0, 0, 1, 2, 9]) ∧
    ptrPrepareRSRCData ⟨8, 6, 0, 1⟩ none = .ok [] ∧
    ptrExpectedRSRCSize ⟨8, 6, 0, 1⟩ = 0 ∧
    ptrInitWithXML (ptrExportXML (some 258)) = some 258 := by
  refine ⟨?_, ?_, ?_, ?_, ?_, C9_ptr_version_gate.2.2.2.2.2 (some 258)⟩
  · exact C9_ptr_version_gate.1 ⟨8, 5, 0, 0⟩ [0, 0, 1, 2, 9] (by decide)
  · exact (C9_ptr_version_gate.2.1 ⟨8, 5, 0, 0⟩ 258 (by decide) (by decide)).1
  · exact (C9_ptr_version_gate.2.2.1 ⟨8, 6, 0, 1⟩ [0, 0, 1, 2, 9] (by decide)).1
  · exact (C9_ptr_version_gate.2.2.1 ⟨8, 6, 0, 1⟩ [0, 0, 1, 2, 9] (by decide)).2.1
  · exact (C9_ptr_version_gate.2.2.1 ⟨8, 6, 0, 1⟩ [0, 0, 1, 2, 9] (by decide)).2.2

/-- Claim C10: encoding an opaque block whose stored value length differs
from the declared block size permanently rewrites the stored value to the
padded or truncated form: after one encode the stored value's length equals
the declared block size, the produced buffer is that new stored value, a
later `expectedRSRCSize` reports the block size, and a later encode returns
the modified value unchanged. -/
theorem C10_block_encode_mutation (blkSize : Nat) (st : BlockState)
    (h : st.value.length ≠ blkSize) :
    (blockPrepareRSRCData blkSize st).1.value.length = blkSize ∧
    (blockPrepareRSRCData blkSize st).2
      = (blockPrepareRSRCData blkSize st).1.value ∧
    blockExpectedRSRCSize (blockPrepareRSRCData blkSize st).1 = blkSize ∧
    blockPrepareRSRCData blkSize (blockPrepareRSRCData blkSize st).1
      = ((blockPrepareRSRCData blkSize st).1,
         (blockPrepareRSRCData blkSize st).1.value) := by
  obtain ⟨h1, h2⟩ := blockPrepare_result_length blkSize st h
  exact ⟨h1, h2, h1, blockPrepare_fixed blkSize _ h1⟩

/-- Claim C10, witness: a block node holding 3 bytes with declared size 5 is
padded in place: its stored value becomes 5 bytes long, the buffer is that
value, the expected size becomes 5, and a second encode is the identity. -/
theorem C10_block_encode_mutation_witness :
    (blockPrepareRSRCData 5 ⟨[1, 2, 3]⟩).1.value.length = 5 ∧
    (blockPrepareRSRCData 5 ⟨[1, 2, 3]⟩).2
      = (blockPrepareRSRCData 5 ⟨[1, 2, 3]⟩).1.value ∧
    blockExpectedRSRCSize (blockPrepareRSRCData 5 ⟨[1, 2, 3]⟩).1 = 5 ∧
    blockPrepareRSRCData 5 (blockPrepareRSRCData 5 ⟨[1, 2, 3]⟩).1
      = ((blockPrepareRSRCData 5 ⟨[1, 2, 3]⟩).1,
         (blockPrepareRSRCData 5 ⟨[1, 2, 3]⟩).1.value) :=
  C10_block_encode_mutation 5 ⟨[1, 2, 3]⟩ (by decide)
